import Mathlib

/-!
Shallow embedding of the log-quality-toolkit repository
(src/log-quality-toolkit/src/validation.py and src/loader.py).

Python scalars that can appear in a raw record are modelled by `Value`;
records are association lists (Python dicts preserve insertion order and
have unique keys).  Python functions that can raise are modelled with
explicit outcome types whose constructors say whether the function
returned or raised, and with which exception.
-/

namespace LogQuality

/-- A raw scalar in a log record: Python `None`, a string, or some other
non-string scalar (number, bool, ...).  `other` carries the Python type
name (e.g. "int") used by `validate_user`'s error message. -/
inductive Value where
  | none
  | str (s : String)
  | other (ty : String)
deriving DecidableEq

/-- A Python dict from field name to scalar, as an association list in
insertion order (keys unique, as in a dict). -/
def Record := List (String × Value)

instance : DecidableEq Record := by
  unfold Record
  infer_instance

/-- Python `record.get(k)` / `record[k]` for keys that are present;
`dict.get` returns `None` when the key is absent. -/
def recGet (r : Record) (k : String) : Value :=
  (List.lookup k r).getD Value.none

/-- AUTH_LOG_SCHEMA: field names in declaration order, paired with their
`required` flag (validation.py lines 83-153). -/
def AUTH_LOG_SCHEMA_required : List (String × Bool) :=
  [("timestamp", true), ("user", true), ("event_id", false),
   ("src_ip", false), ("dest_host", false), ("action", false)]

/-- The schema's field names, used by the `candidate in AUTH_LOG_SCHEMA`
membership test in validate_and_clean's except-handler. -/
def AUTH_LOG_SCHEMA_names : List String :=
  AUTH_LOG_SCHEMA_required.map Prod.fst

/-- Does the second list start with the first?  (Char-list model of
Python str.startswith; structurally recursive so it reduces in the
kernel, unlike the byte-based core String functions.) -/
def listStartsWith : List Char → List Char → Bool
  | [], _ => true
  | _ :: _, [] => false
  | p :: ps, c :: cs => p = c && listStartsWith ps cs

/-- Python `s.startswith(pre)`. -/
def pyStartsWith (s pre : String) : Bool :=
  listStartsWith pre.data s.data

/-- Python `s.endswith(suffix)`. -/
def pyEndsWith (s suffix : String) : Bool :=
  listStartsWith suffix.data.reverse s.data.reverse

/-- Everything after the first colon: Python `s.split(":", 1)[1]`
(callers guard on a colon being present; without one the Python
expression would raise IndexError, here it yields []). -/
def afterFirstColon : List Char → List Char
  | [] => []
  | ':' :: rest => rest
  | _ :: rest => afterFirstColon rest

def dropLeadingWs : List Char → List Char
  | [] => []
  | c :: rest => if c.isWhitespace then dropLeadingWs rest else c :: rest

/-- Python `s.strip()`. -/
def pyStrip (cs : List Char) : List Char :=
  (dropLeadingWs (dropLeadingWs cs.reverse).reverse)

/-- AUTH_LOG_SCHEMA["timestamp"]["formats"] (validation.py line 91). -/
def timestamp_formats : List String :=
  ["%Y-%m-%d %H:%M:%S", "%Y-%m-%dT%H:%M:%SZ", "%Y-%m-%d %H:%M:%S.%f"]

/-- AUTH_LOG_SCHEMA["user"]["constraints"]["min_length"]. -/
def user_min_length : Nat := 1

/-- AUTH_LOG_SCHEMA["user"]["constraints"]["max_length"]. -/
def user_max_length : Nat := 256

/-! ### datetime.strptime, specialised to the schema's format directives

CPython's `_strptime` turns a format string into a regular expression
(compiled with IGNORECASE, with runs of whitespace in the format matching
`\s+` in the input; our formats only contain single spaces) and requires
the whole input to match.  The directives appearing in the schema's
formats translate to:
  %Y  four digits            %m  1[0-2]|0[1-9]|[1-9]
  %d  3[01]|[12]\d|0[1-9]|[1-9]   %H  2[0-3]|[0-1]\d|\d
  %M,%S  [0-5]\d|\d          %f  [0-9]{1,6}
After the regex matches, `datetime(year, month, day, ...)` is built and
raises ValueError when the day does not exist in that month/year or the
year is below MINYEAR = 1; `strptime` then fails for that format. -/

/-- One token of a strptime format string. -/
inductive FmtTok where
  | dirY | dirm | dird | dirH | dirM | dirS | dirf
  | lit (c : Char)
  | unsupported
deriving DecidableEq

/-- Split a format string into directives and literal characters. -/
def tokenizeFmt : List Char → List FmtTok
  | [] => []
  | '%' :: c :: rest =>
      (match c with
       | 'Y' => FmtTok.dirY
       | 'm' => FmtTok.dirm
       | 'd' => FmtTok.dird
       | 'H' => FmtTok.dirH
       | 'M' => FmtTok.dirM
       | 'S' => FmtTok.dirS
       | 'f' => FmtTok.dirf
       | _ => FmtTok.unsupported) :: tokenizeFmt rest
  | c :: rest => FmtTok.lit c :: tokenizeFmt rest

/-- Numeric value of a decimal digit character. -/
def digitVal (c : Char) : Option Nat :=
  if c.isDigit then some (c.toNat - 48) else Option.none

/-- Candidate matches for a one-or-two-digit directive, in the regex's
alternation order (two-digit alternatives first, then the one-digit one).
A two-digit prefix matches when its value lies in [lo2, hi2]; a single
digit matches when it is at least lo1. -/
def numCands (lo2 hi2 lo1 : Nat) (cs : List Char) : List (Nat × List Char) :=
  (match cs with
   | c1 :: c2 :: rest =>
     match digitVal c1, digitVal c2 with
     | some a, some b =>
       if lo2 ≤ 10 * a + b ∧ 10 * a + b ≤ hi2 then [(10 * a + b, rest)] else []
     | _, _ => []
   | _ => []) ++
  (match cs with
   | c1 :: rest =>
     match digitVal c1 with
     | some a => if lo1 ≤ a then [(a, rest)] else []
     | _ => []
   | _ => [])

/-- `%Y`: exactly four digits. -/
def take4digits : List Char → Option (Nat × List Char)
  | a :: b :: c :: d :: rest =>
    match digitVal a, digitVal b, digitVal c, digitVal d with
    | some x, some y, some z, some w => some (1000 * x + 100 * y + 10 * z + w, rest)
    | _, _, _, _ => Option.none
  | _ => Option.none

/-- Length of the longest prefix satisfying p. -/
def leadingCount (p : Char → Bool) : List Char → Nat
  | [] => 0
  | c :: rest => if p c then leadingCount p rest + 1 else 0

/-- Remainders after greedily consuming between 1 and maxN characters
satisfying p, longest consumption first (regex `+` / `{1,6}` order). -/
def greedyRests (p : Char → Bool) (maxN : Nat) (cs : List Char) : List (List Char) :=
  let k := min (leadingCount p cs) maxN
  (List.range k).map (fun i => cs.drop (k - i))

/-- Match a token list against the input, carrying the year/month/day
seen so far (strptime defaults: 1900-01-01).  Tries alternatives in the
regex's backtracking order and returns the first full match.  `fuel`
only bounds the recursion; every recursive call consumes at least one
input character, so `cs.length + 1` is always enough. -/
def matchToks (fuel : Nat) (toks : List FmtTok) (cs : List Char)
    (y m d : Nat) : Option (Nat × Nat × Nat) :=
  match fuel with
  | 0 => Option.none
  | f + 1 =>
    match toks, cs with
    | [], [] => some (y, m, d)
    | [], _ :: _ => Option.none
    | FmtTok.dirY :: ts, cs =>
      (match take4digits cs with
       | some (v, rest) => matchToks f ts rest v m d
       | Option.none => Option.none)
    | FmtTok.dirm :: ts, cs =>
      (numCands 1 12 1 cs).findSome? (fun vr => matchToks f ts vr.2 y vr.1 d)
    | FmtTok.dird :: ts, cs =>
      (numCands 1 31 1 cs).findSome? (fun vr => matchToks f ts vr.2 y m vr.1)
    | FmtTok.dirH :: ts, cs =>
      (numCands 0 23 0 cs).findSome? (fun vr => matchToks f ts vr.2 y m d)
    | FmtTok.dirM :: ts, cs =>
      (numCands 0 59 0 cs).findSome? (fun vr => matchToks f ts vr.2 y m d)
    | FmtTok.dirS :: ts, cs =>
      (numCands 0 59 0 cs).findSome? (fun vr => matchToks f ts vr.2 y m d)
    | FmtTok.dirf :: ts, cs =>
      (greedyRests Char.isDigit 6 cs).findSome? (fun rest => matchToks f ts rest y m d)
    | FmtTok.lit c :: ts, cs =>
      if c.isWhitespace then
        (greedyRests Char.isWhitespace cs.length cs).findSome?
          (fun rest => matchToks f ts rest y m d)
      else
        (match cs with
         | c2 :: rest =>
           if c.toLower = c2.toLower then matchToks f ts rest y m d else Option.none
         | [] => Option.none)
    | FmtTok.unsupported :: _, _ => Option.none

/-- Gregorian leap year, as datetime uses. -/
def isLeapYear (y : Nat) : Bool :=
  y % 4 = 0 ∧ (y % 100 ≠ 0 ∨ y % 400 = 0)

/-- Days in a month (month is 1-12 here, guaranteed by the %m regex). -/
def daysInMonth (y m : Nat) : Nat :=
  if m = 2 then (if isLeapYear y then 29 else 28)
  else if m = 4 ∨ m = 6 ∨ m = 9 ∨ m = 11 then 30
  else 31

/-- The `datetime(...)` construction check after the regex match:
year ≥ MINYEAR = 1 and the day exists in that month. -/
def validDate (y m d : Nat) : Bool :=
  1 ≤ y ∧ d ≤ daysInMonth y m

/-- `datetime.strptime(value, fmt)` succeeds (does not raise ValueError). -/
def strptime_ok (value fmt : String) : Bool :=
  match matchToks (value.length + 1) (tokenizeFmt fmt.data) value.data 1900 1 1 with
  | some (y, m, d) => validDate y m d
  | Option.none => false

/-! ### The three validators (validation.py lines 160-230) -/

/-- Outcome of `validate_timestamp`.  `retErrObj` is the buggy branch that
*returns* a `TimestampParseError` instance instead of raising it (line
172); the caller sees no exception.  `raised` raises `TimestampParseError`
(line 183), whose message interpolates the format list. -/
inductive TsOutcome where
  | retErrObj
  | retTrue
  | raised
deriving DecidableEq

/-- validation.py lines 160-184. -/
def validate_timestamp (value : Value) : TsOutcome :=
  match value with
  | Value.str s =>
    if s = "" then TsOutcome.retErrObj
    else if timestamp_formats.any (fun fmt => strptime_ok s fmt) then TsOutcome.retTrue
    else TsOutcome.raised
  | _ => TsOutcome.retErrObj

/-- Outcome of `validate_user`: returned True, or raised `user_error`
(a subclass of SchemaError) with the given message. -/
inductive UserOutcome where
  | retTrue
  | raised (msg : String)
deriving DecidableEq

/-- Python's repr of a type, `str(type(v))`, e.g. for "NoneType".
The quote character is written via its code point. -/
def typeRepr (tyName : String) : String :=
  "<class " ++ String.singleton (Char.ofNat 39) ++ tyName
    ++ String.singleton (Char.ofNat 39) ++ ">"

/-- The message of the length-constraint `user_error` (validation.py
lines 207-210). -/
def user_length_message (n : Nat) : String :=
  "User must be between " ++ toString user_min_length ++ " and "
    ++ toString user_max_length ++ " characters long. Got length "
    ++ toString n ++ "."

/-- validation.py lines 187-211. -/
def validate_user (value : Value) : UserOutcome :=
  match value with
  | Value.str s =>
    if user_min_length ≤ s.length ∧ s.length ≤ user_max_length then UserOutcome.retTrue
    else UserOutcome.raised (user_length_message s.length)
  | Value.none => UserOutcome.raised ("User must be a string, got " ++ typeRepr "NoneType")
  | Value.other ty => UserOutcome.raised ("User must be a string, got " ++ typeRepr ty)

/-- Outcome of `validate_required_fields`: returned True, or raised
`SchemaError` with the given message. -/
inductive ReqOutcome where
  | retTrue
  | raised (msg : String)
deriving DecidableEq

/-- The loop of validate_required_fields over the schema's items in
declaration order (validation.py lines 226-230). -/
def req_check : List (String × Bool) → Record → ReqOutcome
  | [], _ => ReqOutcome.retTrue
  | (field, req) :: rest, r =>
    if req then
      match List.lookup field r with
      | Option.none => ReqOutcome.raised ("Missing required field: " ++ field)
      | some Value.none => ReqOutcome.raised ("Missing required field: " ++ field)
      | some _ => req_check rest r
    else req_check rest r

/-- validation.py lines 214-230. -/
def validate_required_fields (r : Record) : ReqOutcome :=
  req_check AUTH_LOG_SCHEMA_required r

/-! ### validate_and_clean (validation.py lines 236-355) -/

/-- One row of the input DataFrame as seen by `df.itertuples()`:
`row.Index` plus the six column attributes the loop reads
(validation.py lines 313-322; the code reads `row.action_id`). -/
structure Row where
  idx : Nat
  timestamp : Value
  user : Value
  src_ip : Value
  dest_host : Value
  action_id : Value
  action : Value
deriving DecidableEq

/-- The record dict built for one row (validation.py lines 314-322),
keys in insertion order. -/
def mkRecord (row : Row) : Record :=
  [("timestamp", row.timestamp), ("user", row.user), ("src_ip", row.src_ip),
   ("dest_host", row.dest_host), ("id", row.action_id), ("action", row.action)]

/-- The error_counts dict initialised at validation.py lines 304-311. -/
structure ErrorCounts where
  missing_required_fields : Nat
  timestamp_errors : Nat
  user_errors : Nat
  src_ip_errors : Nat
  action_errors : Nat
  other_schema_errors : Nat
deriving DecidableEq

def initErrorCounts : ErrorCounts := ⟨0, 0, 0, 0, 0, 0⟩

/-- One entry of bad_rows_list (validation.py lines 341-351). -/
structure BadRow where
  row_index : Nat
  field : Option String
  error_type : String
  message : String
  preview_timestamp : Value
  preview_user : Value
  preview_src_ip : Value
deriving DecidableEq

/-- The three accumulators of the loop (validation.py lines 302-311). -/
structure LoopState where
  clean_rows : List Record
  bad_rows_list : List BadRow
  error_counts : ErrorCounts
deriving DecidableEq

def initLoopState : LoopState := ⟨[], [], initErrorCounts⟩

/-- The `except SchemaError` handler (validation.py lines 331-353): it
unconditionally increments error_counts["missing_required_fields"],
recovers the field name from the exception message, and appends a
bad_rows_list entry with error_type "missing_required_fields". -/
def handleSchemaError (idx : Nat) (record : Record) (msg : String)
    (st : LoopState) : LoopState :=
  let field : Option String :=
    if pyStartsWith msg "Missing required field:" then
      let candidate := String.mk (pyStrip (afterFirstColon msg.data))
      if AUTH_LOG_SCHEMA_names.contains candidate then some candidate else Option.none
    else Option.none
  { st with
    error_counts := { st.error_counts with
      missing_required_fields := st.error_counts.missing_required_fields + 1 }
    bad_rows_list := st.bad_rows_list ++
      [{ row_index := idx, field := field,
         error_type := "missing_required_fields", message := msg,
         preview_timestamp := recGet record "timestamp",
         preview_user := recGet record "user",
         preview_src_ip := recGet record "src_ip" }] }

/-- The body of the per-row try/except (validation.py lines 324-353).
Only SchemaError (and its subclass user_error) is caught; a raised
TimestampParseError is uncaught and propagates, modelled as
`Option.none`.  A returned (not raised) TimestampParseError object from
validate_timestamp is no exception, so control just continues. -/
def processRow (st : LoopState) (row : Row) : Option LoopState :=
  let record := mkRecord row
  match validate_required_fields record with
  | ReqOutcome.raised msg => some (handleSchemaError row.idx record msg st)
  | ReqOutcome.retTrue =>
    match validate_timestamp (recGet record "timestamp") with
    | TsOutcome.raised => Option.none
    | _ =>
      match validate_user (recGet record "user") with
      | UserOutcome.raised msg => some (handleSchemaError row.idx record msg st)
      | UserOutcome.retTrue =>
        some { st with clean_rows := st.clean_rows ++ [record] }

/-- The `for row in df.itertuples()` loop; `Option.none` means an
uncaught TimestampParseError aborted the whole call. -/
def validate_and_clean_loop : List Row → LoopState → Option LoopState
  | [], st => some st
  | row :: rest, st =>
    match processRow st row with
    | some st2 => validate_and_clean_loop rest st2
    | Option.none => Option.none

/-- The issues_dict the docstring promises (validation.py lines 291-299).
Percentages are modelled as exact rationals.  The implementation never
constructs a value of this type. -/
structure IssuesDict where
  total_rows : Nat
  clean_rows : Nat
  bad_rows : Nat
  bad_rows_list : List BadRow
  error_counts : ErrorCounts
  null_rates : List (String × Rat)
deriving DecidableEq

/-- Result of calling a Python function that can let a
TimestampParseError escape. -/
inductive PyResult (α : Type) where
  | raisedTimestampParseError
  | returns (v : α)
deriving DecidableEq

/-- validation.py lines 236-355.  The function body is the loop followed
by nothing: there is no return statement, so whenever no exception
escapes, the call returns Python None (`Option.none`), never the
(clean_df, issues_dict) pair the docstring describes. -/
def validate_and_clean (df : List Row) :
    PyResult (Option (List Record × IssuesDict)) :=
  match validate_and_clean_loop df initLoopState with
  | Option.none => PyResult.raisedTimestampParseError
  | some _ => PyResult.returns Option.none

/-! ### loader.py -/

/-- How one attempted read of a file by a pandas/json reader can end.
The payload of the error constructors is `str(exception)` for the caught
low-level exception. -/
inductive ReadOutcome where
  | ok (df : List Row)
  | fileNotFound (s : String)
  | parserError (s : String)
  | jsonDecodeError (s : String)
  | unicodeDecodeError (s : String)
  | otherError (s : String)
deriving DecidableEq

/-- The file system together with pandas' readers, as an oracle mapping a
path to what `pd.read_csv` / `pd.read_json` / `pd.read_json(lines=True)`
would do on it. -/
structure FileSys where
  read_csv : String → ReadOutcome
  read_json : String → ReadOutcome
  read_jsonl : String → ReadOutcome

/-- The FileFormatError exception (validation.py lines 23-57). -/
structure FileFormatError where
  file_path : String
  message : String
  error_code : String
  original : Option String
deriving DecidableEq

/-- An entry of the error list returned by load_all_logs: either
FileFormatError.to_dict (validation.py lines 59-67) or the generic dict
built at loader.py lines 189-195. -/
structure ErrDict where
  file : String
  kind : String
  error_code : String
  message : String
  original_error : Option String
deriving DecidableEq

/-- FileFormatError.to_dict (validation.py lines 59-67). -/
def FileFormatError.to_dict (e : FileFormatError) : ErrDict :=
  { file := e.file_path, kind := "file_format", error_code := e.error_code,
    message := e.message, original_error := e.original }

/-- Result of load_logs: a DataFrame, a raised FileFormatError, or an
uncaught non-FileFormatError exception (carrying its class name). -/
inductive LoadResult where
  | ok (df : List Row)
  | ffe (e : FileFormatError)
  | pyError (name : String)
deriving DecidableEq

/-- The except-chain of load_logs (loader.py lines 71-108) applied to a
reader's outcome.  The `except json.JSONDecodeError` and
`except UnicodeDecodeError` clauses (lines 85-98) reference a variable
`e` they never bind, so entering them raises an uncaught NameError
instead of building a FileFormatError. -/
def readToResult (p : String) : ReadOutcome → LoadResult
  | ReadOutcome.ok df => LoadResult.ok df
  | ReadOutcome.fileNotFound s =>
    LoadResult.ffe ⟨p, "File not found", "file_not_found", some s⟩
  | ReadOutcome.parserError s =>
    LoadResult.ffe ⟨p, "Error parsing the contents of the file", "parsing_error", some s⟩
  | ReadOutcome.jsonDecodeError _ => LoadResult.pyError "NameError"
  | ReadOutcome.unicodeDecodeError _ => LoadResult.pyError "NameError"
  | ReadOutcome.otherError s =>
    LoadResult.ffe ⟨p, "Unknown error occurred", "unknown", some s⟩

/-- load_logs (loader.py lines 24-108).  The path is `Option.none` for
Python None.  `str(Path(p))` is modelled as `p` itself (POSIX path
normalisation is irrelevant to the claims).  A raised FileFormatError
from the unsupported-extension branch is re-raised unchanged by the
`except FileFormatError` clause. -/
def load_logs (file_path : Option String) (fs : FileSys) : LoadResult :=
  match file_path with
  | Option.none =>
    LoadResult.ffe ⟨"None", "Invalid file path provided", "invalid_path", Option.none⟩
  | some p =>
    if pyEndsWith p ".csv" then readToResult p (fs.read_csv p)
    else if pyEndsWith p ".json" then readToResult p (fs.read_json p)
    else if pyEndsWith p ".jsonl" then readToResult p (fs.read_jsonl p)
    else
      LoadResult.ffe
        ⟨p, "Unsupported_format. Expected .csv, json, or jsonl",
         "unsupported_format", Option.none⟩

/-- Python truthiness of a path entry: None and "" are falsy. -/
def isFalsyPath : Option String → Bool
  | Option.none => true
  | some s => s = ""

/-- Python str() of a path entry, as load_all_logs applies before
calling load_logs. -/
def pyStr : Option String → String
  | Option.none => "None"
  | some s => s

/-- The loop of load_all_logs (loader.py lines 176-196) with its two
accumulators.  Falsy paths are skipped; a FileFormatError contributes
its to_dict; any other exception (e.g. the NameError from load_logs)
contributes the generic dict of lines 189-195, whose message and
original_error are both str(e). -/
def load_all_logs_go : List (Option String) → FileSys →
    List (List Row) → List ErrDict → List (List Row) × List ErrDict
  | [], _, dfs, errs => (dfs, errs)
  | p :: rest, fs, dfs, errs =>
    if isFalsyPath p then load_all_logs_go rest fs dfs errs
    else
      match load_logs (some (pyStr p)) fs with
      | LoadResult.ok df => load_all_logs_go rest fs (dfs ++ [df]) errs
      | LoadResult.ffe e => load_all_logs_go rest fs dfs (errs ++ [e.to_dict])
      | LoadResult.pyError m =>
        load_all_logs_go rest fs dfs
          (errs ++ [⟨pyStr p, "unknown_error", "unknown", m, some m⟩])

/-- load_all_logs (loader.py lines 137-204).  pd.concat over the
collected DataFrames is list concatenation; with no DataFrames the code
returns an empty DataFrame. -/
def load_all_logs (paths : List (Option String)) (fs : FileSys) :
    List Row × List ErrDict :=
  let r := load_all_logs_go paths fs [] []
  if r.1.length ≠ 0 then (r.1.flatten, r.2) else ([], r.2)

/-- The rows load_logs produced for a path when it succeeded, as
load_all_logs invokes it (after str()). -/
def loadSuccessRows (fs : FileSys) (p : Option String) : Option (List Row) :=
  match load_logs (some (pyStr p)) fs with
  | LoadResult.ok df => some df
  | _ => Option.none

/-- The single error dict load_all_logs appends for a path on which
load_logs failed. -/
def loadFailureErr (fs : FileSys) (p : Option String) : Option ErrDict :=
  match load_logs (some (pyStr p)) fs with
  | LoadResult.ok _ => Option.none
  | LoadResult.ffe e => some e.to_dict
  | LoadResult.pyError m => some ⟨pyStr p, "unknown_error", "unknown", m, some m⟩

/-! ### Concrete fixtures used by the claim theorems -/

def row_valid : Row :=
  ⟨0, Value.str "2025-01-02 15:04:05", Value.str "alice",
   Value.none, Value.none, Value.none, Value.none⟩

def row_valid2 : Row :=
  ⟨1, Value.str "2025-01-02 15:04:05", Value.str "bob",
   Value.none, Value.none, Value.none, Value.none⟩

def row_bad_timestamp : Row :=
  ⟨0, Value.str "not-a-timestamp", Value.str "alice",
   Value.none, Value.none, Value.none, Value.none⟩

def row_bad_user : Row :=
  ⟨0, Value.str "2025-01-02 15:04:05", Value.str "",
   Value.none, Value.none, Value.none, Value.none⟩

/-- Four otherwise-valid records in which src_ip is present in exactly
one (the spec's null-rate example: nullRates["src_ip"] should be 75.0). -/
def nullrate_rows : List Row :=
  [⟨0, Value.str "2025-01-02 15:04:05", Value.str "alice",
    Value.str "10.0.0.1", Value.none, Value.none, Value.none⟩,
   ⟨1, Value.str "2025-01-02 15:04:05", Value.str "bob",
    Value.none, Value.none, Value.none, Value.none⟩,
   ⟨2, Value.str "2025-01-02 15:04:05", Value.str "carol",
    Value.none, Value.none, Value.none, Value.none⟩,
   ⟨3, Value.str "2025-01-02 15:04:05", Value.str "dave",
    Value.none, Value.none, Value.none, Value.none⟩]

/-- A file system on which every read attempt raises FileNotFoundError. -/
def fsNotFound : FileSys :=
  ⟨fun _ => ReadOutcome.fileNotFound "FileNotFoundError",
   fun _ => ReadOutcome.fileNotFound "FileNotFoundError",
   fun _ => ReadOutcome.fileNotFound "FileNotFoundError"⟩

/-- A file system on which every read attempt raises json.JSONDecodeError. -/
def fsJsonDecode : FileSys :=
  ⟨fun _ => ReadOutcome.jsonDecodeError "Expecting value",
   fun _ => ReadOutcome.jsonDecodeError "Expecting value",
   fun _ => ReadOutcome.jsonDecodeError "Expecting value"⟩

/-- The FileFormatError that load_logs raises for a None path. -/
def ffe_invalid_path : FileFormatError :=
  ⟨"None", "Invalid file path provided", "invalid_path", Option.none⟩

/-! ### Claim theorems -/

set_option maxRecDepth 1000000 in
/-- Claim C1: the claim says validate_and_clean returns a quality report
with totalRows == |cleanRows| + |quarantine| and sum(errorCounts) ==
|quarantine|.  The code never builds the report its docstring promises:
the function body ends after the row loop with no return statement, so
on a batch of one fully valid record the call returns Python None and no
report (with or without the invariant) exists. -/
theorem validate_and_clean_returns_none_not_report :
    validate_and_clean [row_valid] = PyResult.returns Option.none := by
  decide

set_option maxRecDepth 1000000 in
/-- Claim C2: the claim says a validator failure quarantines only that
record and processing of subsequent records continues.  For a timestamp
format failure this is false: validate_timestamp raises
TimestampParseError, which is not a SchemaError, so the per-row `except
SchemaError` does not catch it and the whole batch aborts — the valid
second record is never processed, while the same second record alone
goes through fine. -/
theorem timestamp_failure_aborts_whole_batch :
    validate_and_clean [row_bad_timestamp, row_valid2] =
      PyResult.raisedTimestampParseError
    ∧ validate_and_clean [row_valid2] = PyResult.returns Option.none := by
  constructor <;> decide

set_option maxRecDepth 1000000 in
/-- Claim C3: the claim says each validator failure is recorded with its
own error kind and increments only its own counter.  In the code the
single `except SchemaError` handler unconditionally increments
error_counts["missing_required_fields"] and writes error_type
"missing_required_fields": a record whose only defect is an invalid user
(empty string) ends with missing_required_fields = 1 and user_errors = 0,
and its quarantine entry is typed "missing_required_fields". -/
theorem user_failure_miscounted_as_missing_required :
    validate_and_clean_loop [row_bad_user] initLoopState =
      some ⟨[], [⟨0, Option.none, "missing_required_fields",
        "User must be between 1 and 256 characters long. Got length 0.",
        Value.str "2025-01-02 15:04:05", Value.str "", Value.none⟩],
        ⟨1, 0, 0, 0, 0, 0⟩⟩ := by
  decide

set_option maxRecDepth 100000 in
/-- Claim C4: the required-field check runs first and short-circuits: a
record whose timestamp is absent or None is rejected with the
missing-required-field error naming "timestamp" (the first required
field in schema declaration order); when timestamp is present and
non-null but user is absent or None the error names "user"; and in the
batch loop a row with a None timestamp is quarantined with field
"timestamp" and error_type "missing_required_fields" whatever its user
value is — so an invalid user string can never turn such a record into
an InvalidUser quarantine. -/
theorem required_field_check_precedes_validators :
    (∀ r : Record,
      List.lookup "timestamp" r = Option.none ∨
        List.lookup "timestamp" r = some Value.none →
      validate_required_fields r = ReqOutcome.raised "Missing required field: timestamp")
    ∧ (∀ r : Record,
      ¬(List.lookup "timestamp" r = Option.none ∨
          List.lookup "timestamp" r = some Value.none) →
      (List.lookup "user" r = Option.none ∨ List.lookup "user" r = some Value.none) →
      validate_required_fields r = ReqOutcome.raised "Missing required field: user")
    ∧ (∀ (st : LoopState) (idx : Nat) (u sip dh aid act : Value),
      processRow st ⟨idx, Value.none, u, sip, dh, aid, act⟩ =
        some { st with
          error_counts := { st.error_counts with
            missing_required_fields := st.error_counts.missing_required_fields + 1 }
          bad_rows_list := st.bad_rows_list ++
            [⟨idx, some "timestamp", "missing_required_fields",
              "Missing required field: timestamp", Value.none, u, sip⟩] }) := by
  refine ⟨fun r h => ?_, fun r h1 h2 => ?_, fun st idx u sip dh aid act => rfl⟩
  · rcases h with h | h <;>
      simp [validate_required_fields, AUTH_LOG_SCHEMA_required, req_check, h]
  · push_neg at h1
    obtain ⟨ha, hb⟩ := h1
    cases hv : List.lookup "timestamp" r with
    | none => exact absurd hv ha
    | some v =>
      cases v with
      | none => exact absurd hv hb
      | str s =>
        rcases h2 with h | h <;>
          simp [validate_required_fields, AUTH_LOG_SCHEMA_required, req_check, hv, h]
      | other ty =>
        rcases h2 with h | h <;>
          simp [validate_required_fields, AUTH_LOG_SCHEMA_required, req_check, hv, h]

set_option maxRecDepth 100000 in
theorem required_field_check_precedes_validators_witness :
    validate_required_fields [("user", Value.str "alice")] =
      ReqOutcome.raised "Missing required field: timestamp"
    ∧ validate_required_fields [("timestamp", Value.str "x"), ("user", Value.none)] =
      ReqOutcome.raised "Missing required field: user" :=
  ⟨required_field_check_precedes_validators.1 _ (by decide),
   required_field_check_precedes_validators.2.1 _ (by decide) (by decide)⟩

set_option maxRecDepth 1000000 in
/-- Claim C5: the three declared formats are each accepted and a string
matching no format raises, as the claim says; but for the absent (None),
non-string and empty-string cases the function *returns* a
TimestampParseError instance instead of raising it (or returning False,
as its docstring promises).  The returned object is truthy and no
exception is seen by callers, so these values pass validation
downstream. -/
theorem validate_timestamp_concrete_outcomes :
    validate_timestamp (Value.str "2025-01-02 15:04:05") = TsOutcome.retTrue
    ∧ validate_timestamp (Value.str "2025-01-02T15:04:05Z") = TsOutcome.retTrue
    ∧ validate_timestamp (Value.str "2025-01-02 15:04:05.123456") = TsOutcome.retTrue
    ∧ validate_timestamp (Value.str "not-a-timestamp") = TsOutcome.raised
    ∧ validate_timestamp (Value.str "") = TsOutcome.retErrObj
    ∧ validate_timestamp Value.none = TsOutcome.retErrObj
    ∧ validate_timestamp (Value.other "int") = TsOutcome.retErrObj := by
  refine ⟨by decide, by decide, by decide, by decide, rfl, rfl, rfl⟩

set_option maxRecDepth 100000 in
/-- Claim C6: validate_user returns True exactly for strings whose
length lies in [1, 256]; in every other case it raises user_error (the
code's InvalidUser kind): too-short or too-long strings get the length
message, and non-strings (None included) get the type message.  "alice"
passes; "", a 257-character string, and non-strings all raise. -/
theorem validate_user_bounded_string :
    (∀ s : String, validate_user (Value.str s) = UserOutcome.retTrue ↔
      (1 ≤ s.length ∧ s.length ≤ 256))
    ∧ (∀ s : String, ¬(1 ≤ s.length ∧ s.length ≤ 256) →
      validate_user (Value.str s) = UserOutcome.raised (user_length_message s.length))
    ∧ (∀ ty : String, validate_user (Value.other ty) =
      UserOutcome.raised ("User must be a string, got " ++ typeRepr ty))
    ∧ validate_user Value.none =
      UserOutcome.raised ("User must be a string, got " ++ typeRepr "NoneType")
    ∧ validate_user (Value.str "alice") = UserOutcome.retTrue
    ∧ validate_user (Value.str "") = UserOutcome.raised (user_length_message 0)
    ∧ validate_user (Value.str (String.mk (List.replicate 257 'a'))) =
      UserOutcome.raised (user_length_message 257) := by
  refine ⟨fun s => ?_, fun s h => ?_, fun ty => rfl, rfl, by decide, by decide, by decide⟩
  · by_cases h : user_min_length ≤ s.length ∧ s.length ≤ user_max_length <;>
      simp [validate_user, h, user_min_length, user_max_length]
  · simp only [validate_user, user_min_length, user_max_length]
    rw [if_neg h]

set_option maxRecDepth 100000 in
theorem validate_user_bounded_string_witness :
    validate_user (Value.str "bob") = UserOutcome.retTrue
    ∧ validate_user (Value.str "") =
      UserOutcome.raised (user_length_message "".length) :=
  ⟨(validate_user_bounded_string.1 "bob").mpr (by decide),
   validate_user_bounded_string.2.1 "" (by decide)⟩

set_option maxRecDepth 1000000 in
/-- Claim C7: the claim says the returned report carries nullRates for
every declared field, with 4 records having src_ip present in 1 giving
nullRates["src_ip"] == 75.0.  The code computes no null rates at all:
on exactly that batch validate_and_clean returns Python None (the
docstring's issues_dict, TODO steps 5-7, is never built). -/
theorem validate_and_clean_computes_no_null_rates :
    validate_and_clean nullrate_rows = PyResult.returns Option.none := by
  decide

/-- Claim C8, counterexample: called on a None path, load_logs raises a
FileFormatError whose error_code "invalid_path" lies outside the claimed
closed set {file_not_found, unsupported_format, parsing_error,
encoding_error, unknown} (and which carries no originating error); and a
JSON decode failure produces no FileFormatError at all — its handler
references an unbound variable `e`, so an uncaught NameError escapes. -/
theorem load_logs_code_outside_claimed_set :
    load_logs Option.none fsNotFound = LoadResult.ffe ffe_invalid_path
    ∧ (["file_not_found", "unsupported_format", "parsing_error",
        "encoding_error", "unknown"].contains
        ffe_invalid_path.error_code) = false
    ∧ load_logs (some "bad.json") fsJsonDecode = LoadResult.pyError "NameError" := by
  refine ⟨rfl, by decide, by decide⟩

/-- Helper: whenever the reader's except-chain produces a
FileFormatError, its code is file_not_found, parsing_error or unknown,
and the originating exception is carried. -/
theorem readToResult_ffe_codes (p : String) (o : ReadOutcome) (e : FileFormatError)
    (h : readToResult p o = LoadResult.ffe e) :
    (e.error_code = "file_not_found" ∨ e.error_code = "parsing_error"
      ∨ e.error_code = "unknown")
    ∧ e.original.isSome = true := by
  cases o with
  | ok df => exact absurd h (by simp [readToResult])
  | fileNotFound s =>
    obtain rfl := (LoadResult.ffe.inj h).symm
    exact ⟨Or.inl rfl, rfl⟩
  | parserError s =>
    obtain rfl := (LoadResult.ffe.inj h).symm
    exact ⟨Or.inr (Or.inl rfl), rfl⟩
  | jsonDecodeError s => exact absurd h (by simp [readToResult])
  | unicodeDecodeError s => exact absurd h (by simp [readToResult])
  | otherError s =>
    obtain rfl := (LoadResult.ffe.inj h).symm
    exact ⟨Or.inr (Or.inr rfl), rfl⟩

/-- Claim C8, amended: whenever load_logs reports a failure as a
FileFormatError, the machine-readable error code is a member of the
closed set {invalid_path, file_not_found, unsupported_format,
parsing_error, encoding_error, unknown}, and the error carries the
originating low-level error except for invalid_path and
unsupported_format (which wrap no caught exception).  (Encoding and
JSON-decode failures never reach a FileFormatError: their handlers
crash with an uncaught NameError.) -/
theorem load_logs_error_codes_amended :
    ∀ (p : Option String) (fs : FileSys) (e : FileFormatError),
      load_logs p fs = LoadResult.ffe e →
      (["invalid_path", "file_not_found", "unsupported_format", "parsing_error",
        "encoding_error", "unknown"].contains e.error_code = true)
      ∧ (e.original.isSome = true ∨ e.error_code = "invalid_path"
         ∨ e.error_code = "unsupported_format") := by
  intro p fs e h
  cases p with
  | none =>
    obtain rfl := (LoadResult.ffe.inj h).symm
    exact ⟨by decide, Or.inr (Or.inl rfl)⟩
  | some s =>
    simp only [load_logs] at h
    split_ifs at h
    · obtain ⟨hc, ho⟩ := readToResult_ffe_codes _ _ _ h
      refine ⟨?_, Or.inl ho⟩
      rcases hc with hc | hc | hc <;> rw [hc] <;> decide
    · obtain ⟨hc, ho⟩ := readToResult_ffe_codes _ _ _ h
      refine ⟨?_, Or.inl ho⟩
      rcases hc with hc | hc | hc <;> rw [hc] <;> decide
    · obtain ⟨hc, ho⟩ := readToResult_ffe_codes _ _ _ h
      refine ⟨?_, Or.inl ho⟩
      rcases hc with hc | hc | hc <;> rw [hc] <;> decide
    · obtain rfl := (LoadResult.ffe.inj h).symm
      exact ⟨rfl, Or.inr (Or.inr rfl)⟩

theorem load_logs_error_codes_amended_witness :
    (["invalid_path", "file_not_found", "unsupported_format", "parsing_error",
      "encoding_error", "unknown"].contains ffe_invalid_path.error_code = true)
    ∧ (ffe_invalid_path.original.isSome = true
       ∨ ffe_invalid_path.error_code = "invalid_path"
       ∨ ffe_invalid_path.error_code = "unsupported_format") :=
  load_logs_error_codes_amended Option.none fsNotFound ffe_invalid_path rfl

/-- Helper: closed form of the load_all_logs loop with its accumulators. -/
theorem load_all_logs_go_spec (fs : FileSys) :
    ∀ (paths : List (Option String)) (dfs : List (List Row)) (errs : List ErrDict),
      load_all_logs_go paths fs dfs errs =
        (dfs ++ (paths.filter (fun p => !isFalsyPath p)).filterMap (loadSuccessRows fs),
         errs ++ (paths.filter (fun p => !isFalsyPath p)).filterMap (loadFailureErr fs)) := by
  intro paths
  induction paths with
  | nil => intro dfs errs; simp [load_all_logs_go]
  | cons p rest ih =>
    intro dfs errs
    by_cases hp : isFalsyPath p
    · simp [load_all_logs_go, hp, ih]
    · cases hl : load_logs (some (pyStr p)) fs with
      | ok df => simp [load_all_logs_go, hp, hl, ih, loadSuccessRows, loadFailureErr]
      | ffe e => simp [load_all_logs_go, hp, hl, ih, loadSuccessRows, loadFailureErr]
      | pyError m => simp [load_all_logs_go, hp, hl, ih, loadSuccessRows, loadFailureErr]

/-- Helper: the final if of load_all_logs collapses, since flattening an
empty list of DataFrames is the empty DataFrame. -/
theorem load_all_logs_eq_flatten (paths : List (Option String)) (fs : FileSys) :
    load_all_logs paths fs =
      ((load_all_logs_go paths fs [] []).1.flatten,
       (load_all_logs_go paths fs [] []).2) := by
  simp only [load_all_logs]
  split
  · rfl
  · rename_i hlen
    have h0 : (load_all_logs_go paths fs [] []).1 = [] :=
      List.length_eq_zero.mp (by omega)
    rw [h0]
    rfl

/-- Claim C9: a structural read failure on one file never aborts the
others: the first component of load_all_logs is the concatenation, in
input order, of the rows of every successfully loaded file, and the
second component holds exactly one error record per (non-falsy) failed
file, in input order. -/
theorem load_all_logs_aggregation :
    ∀ (paths : List (Option String)) (fs : FileSys),
      (load_all_logs paths fs).1 =
        ((paths.filter (fun p => !isFalsyPath p)).filterMap (loadSuccessRows fs)).flatten
      ∧ (load_all_logs paths fs).2 =
        (paths.filter (fun p => !isFalsyPath p)).filterMap (loadFailureErr fs) := by
  intro paths fs
  rw [load_all_logs_eq_flatten, load_all_logs_go_spec]
  simp

/-- Claim C10: falsy path entries (None or "") are silently skipped: a
leading None or "" leaves the whole result unchanged, no error entry
included, and in general the result equals that of the same call with
every falsy entry removed. -/
theorem load_all_logs_skips_falsy_entries :
    ∀ (paths : List (Option String)) (fs : FileSys),
      load_all_logs (Option.none :: paths) fs = load_all_logs paths fs
      ∧ load_all_logs (some "" :: paths) fs = load_all_logs paths fs
      ∧ load_all_logs paths fs =
          load_all_logs (paths.filter (fun p => !isFalsyPath p)) fs := by
  intro paths fs
  have hnone : load_all_logs_go (Option.none :: paths) fs [] [] =
      load_all_logs_go paths fs [] [] := by
    rw [load_all_logs_go]
    simp [isFalsyPath]
  have hempty : load_all_logs_go (some "" :: paths) fs [] [] =
      load_all_logs_go paths fs [] [] := by
    rw [load_all_logs_go]
    simp [isFalsyPath]
  refine ⟨?_, ?_, ?_⟩
  · rw [load_all_logs_eq_flatten, load_all_logs_eq_flatten, hnone]
  · rw [load_all_logs_eq_flatten, load_all_logs_eq_flatten, hempty]
  · rw [load_all_logs_eq_flatten, load_all_logs_eq_flatten,
      load_all_logs_go_spec, load_all_logs_go_spec]
    simp [List.filter_filter]

end LogQuality
